import Mathlib

/-!
Shallow embedding of the Syncopy repository slice under verification:
the validation routines of `syncopy/utils/parsers.py`, the YAML-to-pip
converter `conda2pip.py`, and the test helpers of `syncopy/tests/misc.py`
(trial-definition construction and resource handling).  Python floats are
modelled as exact rationals extended with the two infinities and NaN;
machine behaviour the code relies on (NaN-aware comparisons, NumPy dtype
coercion, empty reductions) is modelled explicitly.
-/

namespace Syncopy

/-- Model of a Python/NumPy floating-point scalar: an exact rational, one
of the two infinities, or NaN.  The source code only compares, rounds and
tests finiteness of floats (no precision-sensitive arithmetic), so this
carrier captures the IEEE-754 behaviour the code relies on exactly:
NaN compares false against everything, the infinities order as expected. -/
inductive PyFloat where
  | finite (q : ℚ)
  | inf
  | ninf
  | nan
deriving DecidableEq

namespace PyFloat

/-- Truth value of `np.isfinite` on a real scalar. -/
def isFinite : PyFloat → Bool
  | finite _ => true
  | _ => false

/-- Truth value of `np.isnan` on a real scalar. -/
def isNan : PyFloat → Bool
  | nan => true
  | _ => false

/-- Truth value of `np.isinf` on a real scalar. -/
def isInf : PyFloat → Bool
  | inf => true
  | ninf => true
  | _ => false

/-- IEEE-754 less-than: any comparison involving NaN is false. -/
def flt : PyFloat → PyFloat → Bool
  | finite a, finite b => a < b
  | finite _, inf => true
  | ninf, finite _ => true
  | ninf, inf => true
  | _, _ => false

/-- IEEE-754 greater-than, `a > b` iff `b < a`. -/
def fgt (a b : PyFloat) : Bool := flt b a

/-- Truth value of `np.round(x) != x`:  `round(x) = x` exactly when `x` is
an integer or an infinity, and `NaN != NaN` is true. -/
def roundNeq : PyFloat → Bool
  | finite q => decide (q.den ≠ 1)
  | nan => true
  | _ => false

/-- Python `str()` rendering, used only inside error-message payloads. -/
def pstr : PyFloat → String
  | finite q => toString q
  | inf => "inf"
  | ninf => "-inf"
  | nan => "nan"

end PyFloat

/-- Scalars that may populate an array-like handed to `array_parser`.
Mirrors the element kinds the docstring advertises (numeric entries and
character lists); other Python objects are outside the modelled domain. -/
inductive PyScalar where
  | int (z : ℤ)
  | float (f : PyFloat)
  | complex (re im : PyFloat)
  | str (s : String)
deriving DecidableEq

/-- The Python values the embedded validators receive as `var`. -/
inductive PyVal where
  | int (z : ℤ)
  | float (f : PyFloat)
  | complex (re im : PyFloat)
  | str (s : String)
  | list (xs : List PyScalar)
  | pynone
deriving DecidableEq

/-- The three domain-specific error classes from `syncopy.shared.errors`
used by `parsers.py`; each constructor carries the structured
expected-versus-actual payload the corresponding class is built from. -/
inductive SPYError where
  | typeError (varname expected : String)
  | valueError (legal varname actual : String)
  | ioError (fsLoc : String) (existed : Bool)
deriving DecidableEq

/-- Plain (non-SPY) Python exceptions the examined code can let escape:
`getattr` failure, the NumPy zero-size-reduction ValueError, and the NumPy
TypeError for a ufunc applied to an unsupported dtype. -/
inductive PlainError where
  | attributeError (msg : String)
  | emptyReduction
  | ufuncTypeError
deriving DecidableEq

/-- An error raised by an embedded routine: either a domain-specific SPY
error or a plain Python/NumPy exception. -/
inductive PErr where
  | spy (e : SPYError)
  | plain (p : PlainError)
deriving DecidableEq

/-- Discriminator: is the raised error one of the SPY classes? -/
def PErr.isSpy : PErr → Bool
  | spy _ => true
  | plain _ => false

/-- Truth value of `isinstance(var, numbers.Number)`. -/
def PyVal.isNumber : PyVal → Bool
  | .int _ => true
  | .float _ => true
  | .complex _ _ => true
  | _ => false

/-- Coarse `str()` rendering for error payloads (the claims inspect only
the error class and its field structure, never the exact text). -/
def PyVal.pstr : PyVal → String
  | .int z => toString z
  | .float f => f.pstr
  | .complex re im => "(" ++ re.pstr ++ "+" ++ im.pstr ++ "j)"
  | .str s => s
  | .list _ => "[...]"
  | .pynone => "None"

/-! ### scalar_parser (syncopy/utils/parsers.py, lines 139-230)

The routine runs three checks in order and ends in a bare `return`
(i.e. it returns `None`); each check either passes or raises. -/

/-- First check of `scalar_parser`: `isinstance(var, numbers.Number)`,
raising `SPYTypeError(var, varname, expected="scalar")` otherwise. -/
def scalarNumberCheck (var : PyVal) (varname : String) : Except PErr Unit :=
  if var.isNumber then .ok () else .error (.spy (.typeError varname "scalar"))

/-- Truth value of `np.round(var) != var` for a scalar Number; for a
complex value NumPy rounds both parts and `!=` holds when either part
differs (NaN parts always differ from themselves). -/
def pyRoundNeq : PyVal → Bool
  | .float f => f.roundNeq
  | .complex re im => re.roundNeq || im.roundNeq
  | _ => false

/-- Second check of `scalar_parser`: the `ntype` branch.  For
`ntype = "int_like"` the source tests `np.round(var) != var` and raises
`SPYValueError(ntype, varname, actual=str(var))`.  For any other `ntype`
string the source evaluates `getattr(__builtins__, ntype)`; inside an
imported module `__builtins__` is the builtins *dict* (not the module), so
this raises a plain `AttributeError` before any comparison happens. -/
def scalarNtypeCheck (var : PyVal) (varname : String) : Option String → Except PErr Unit
  | none => .ok ()
  | some nt =>
    if nt = "int_like" then
      if pyRoundNeq var then .error (.spy (.valueError nt varname var.pstr))
      else .ok ()
    else .error (.plain (.attributeError "dict object has no attribute"))

/-- Truth value of `np.isfinite(var)` on a scalar Number (for a complex
value both parts must be finite). -/
def pyIsFinite : PyVal → Bool
  | .int _ => true
  | .float f => f.isFinite
  | .complex re im => re.isFinite && im.isFinite
  | _ => true

/-- The NumPy view `val` that `scalar_parser` builds for bounds checking:
`np.array([var.real, var.imag])` for a complex scalar, `np.array([var])`
otherwise. -/
def scalarVals : PyVal → List PyFloat
  | .complex re im => [re, im]
  | .float f => [f]
  | .int z => [.finite z]
  | _ => []

/-- Third check of `scalar_parser`: the `lims` bounds check.  Raises
`SPYValueError` when any component compares below `lims[0]`, above
`lims[1]`, or when `var` is not finite (`not np.isfinite(var)`). -/
def scalarLimsCheck (var : PyVal) (varname : String) :
    Option (PyFloat × PyFloat) → Except PErr Unit
  | none => .ok ()
  | some (lo, hi) =>
    let vals := scalarVals var
    let legal :=
      (match var with
        | .complex _ _ => "both real and imaginary part to be "
        | _ => "value to be ") ++
      "greater or equals " ++ lo.pstr ++ " and less or equals " ++ hi.pstr
    if vals.any (fun v => v.flt lo) || vals.any (fun v => v.fgt hi) || ! pyIsFinite var then
      .error (.spy (.valueError legal varname var.pstr))
    else .ok ()

deriving instance DecidableEq for Except

/-- Result of one embedded validator call: the outcome (normal return
value or raised error) together with the post-call values of the caller arguments
`var` and `lims`, threaded explicitly so that absence of
mutation is a provable statement rather than an artefact. -/
structure ParseResult where
  outcome : Except PErr PyVal
  varOut : PyVal
  limsOut : Option (PyFloat × PyFloat)
deriving DecidableEq

/-- Embedding of `scalar_parser`.  The source performs its three checks in
order and ends in a bare `return`; no statement assigns to `var` or
`lims`, so both are returned unchanged. -/
def scalarParser (var : PyVal) (varname : String) (ntype : Option String)
    (lims : Option (PyFloat × PyFloat)) : ParseResult :=
  let chk : Except PErr Unit := do
    scalarNumberCheck var varname
    scalarNtypeCheck var varname ntype
    scalarLimsCheck var varname lims
  ⟨chk.map (fun _ => PyVal.pynone), var, lims⟩

/-! ### array_parser (syncopy/utils/parsers.py, lines 233-435)

The routine converts `var` to a fresh ndarray, runs up to five checks in
source order (type, hasinf, hasnan, lims, dims) and ends in a bare
`return`.  Arrays are modelled one-dimensional; NumPy dtype coercion and
the behaviour of `isinf`/`isnan`/`isfinite`/reductions on each dtype are
modelled explicitly. -/

namespace PyScalar

/-- Element is a Python string. -/
def isStr : PyScalar → Bool
  | str _ => true
  | _ => false

/-- Element is a Python complex number. -/
def isComplex : PyScalar → Bool
  | complex _ _ => true
  | _ => false

/-- Element is a Python int. -/
def isInt : PyScalar → Bool
  | int _ => true
  | _ => false

/-- Truth value of `np.isfinite` on one array element (complex elements
need both parts finite). -/
def elemFinite : PyScalar → Bool
  | int _ => true
  | float f => f.isFinite
  | complex re im => re.isFinite && im.isFinite
  | str _ => true

/-- Truth value of `np.isinf` on one array element (complex elements:
either part infinite). -/
def elemInf : PyScalar → Bool
  | int _ => false
  | float f => f.isInf
  | complex re im => re.isInf || im.isInf
  | str _ => false

/-- Truth value of `np.isnan` on one array element (complex elements:
either part NaN). -/
def elemNan : PyScalar → Bool
  | int _ => false
  | float f => f.isNan
  | complex re im => re.isNan || im.isNan
  | str _ => false

/-- Truth value of `np.round(a) == a` on one array element. -/
def elemRoundEq : PyScalar → Bool
  | int _ => true
  | float f => ! f.roundNeq
  | complex re im => ! (re.roundNeq || im.roundNeq)
  | str _ => true

/-- Real part of a finite numeric element, as a rational (0 on the
unreachable string case). -/
def reQ : PyScalar → ℚ
  | int z => z
  | float (.finite q) => q
  | complex (.finite q) _ => q
  | _ => 0

/-- Imaginary part of a finite numeric element. -/
def imQ : PyScalar → ℚ
  | complex _ (.finite q) => q
  | _ => 0

end PyScalar

/-- NumPy dtype kinds a modelled array can take. -/
inductive NDt where
  | dstr
  | dcomplex
  | dfloat
  | dint
deriving DecidableEq

/-- Dtype resolution of `np.array(l)` over the modelled scalars: any
string entry makes the whole array a string array; otherwise complex
dominates float dominates int; the empty list yields float64. -/
def npDtype (l : List PyScalar) : NDt :=
  if l.any PyScalar.isStr then .dstr
  else if l.any PyScalar.isComplex then .dcomplex
  else if ! l.isEmpty && l.all PyScalar.isInt then .dint
  else .dfloat

/-- Truth value of `np.issubdtype(dtype, np.number)`. -/
def NDt.isNumeric : NDt → Bool
  | dstr => false
  | _ => true

/-- Display name of a dtype kind, used only in error payloads. -/
def NDt.dname : NDt → String
  | dstr => "str"
  | dcomplex => "complex128"
  | dfloat => "float64"
  | dint => "int64"

/-- The `ntype` values admitted by the docstring of `array_parser`, as a closed
enum so that `np.dtype(ntype)` is total on the modelled domain. -/
inductive ANtype where
  | numeric
  | intLike
  | tint
  | tfloat
  | tcomplex
  | tstr
deriving DecidableEq

/-- Truth value of `np.issubdtype(arr.dtype, np.dtype(ntype).type)` for a
concrete dtype name: in the NumPy hierarchy the concrete scalar types are
leaves, so the test holds exactly on matching kinds. -/
def subdtypeOk (dt : NDt) : ANtype → Bool
  | .tint => dt = .dint
  | .tfloat => dt = .dfloat
  | .tcomplex => dt = .dcomplex
  | .tstr => dt = .dstr
  | _ => true

/-- The `ntype` check of `array_parser`: "numeric" and "int_like" first
require a numeric dtype; "int_like" additionally requires every element to
equal its rounding; a concrete dtype name requires a matching dtype.  All
failures raise `SPYValueError` with a dtype message. -/
def arrayNtypeCheck (l : List PyScalar) (varname : String) :
    Option ANtype → Except PErr Unit
  | none => .ok ()
  | some nt =>
    let dt := npDtype l
    match nt with
    | .numeric =>
      if ! dt.isNumeric then
        .error (.spy (.valueError "dtype = numeric" varname ("dtype = " ++ dt.dname)))
      else .ok ()
    | .intLike =>
      if ! dt.isNumeric then
        .error (.spy (.valueError "dtype = numeric" varname ("dtype = " ++ dt.dname)))
      else if ! l.all PyScalar.elemRoundEq then
        .error (.spy (.valueError "dtype = int_like" varname ""))
      else .ok ()
    | t =>
      if subdtypeOk dt t then .ok ()
      else .error (.spy (.valueError "dtype mismatch" varname ("dtype = " ++ dt.dname)))

/-- The `hasinf` check.  `np.isinf` on a string array raises a plain
NumPy TypeError (ufunc not supported); otherwise the source raises
`SPYValueError` when the required (non-)occurrence of infinite entries is
violated. -/
def arrayHasinfCheck (l : List PyScalar) (varname : String) :
    Option Bool → Except PErr Unit
  | none => .ok ()
  | some b =>
    if npDtype l = .dstr then .error (.plain .ufuncTypeError)
    else
      let anyInf := l.any PyScalar.elemInf
      if ! b && anyInf then
        .error (.spy (.valueError "finite numerical array" varname
          ("array with " ++ toString (l.countP PyScalar.elemInf) ++ " inf entries")))
      else if b && ! anyInf then
        .error (.spy (.valueError "numerical array with infinite entries" varname
          "finite numerical array"))
      else .ok ()

/-- The `hasnan` check, structured like the `hasinf` check. -/
def arrayHasnanCheck (l : List PyScalar) (varname : String) :
    Option Bool → Except PErr Unit
  | none => .ok ()
  | some b =>
    if npDtype l = .dstr then .error (.plain .ufuncTypeError)
    else
      let anyNan := l.any PyScalar.elemNan
      if ! b && anyNan then
        .error (.spy (.valueError "well-defined numerical array" varname
          ("array with " ++ toString (l.countP PyScalar.elemNan) ++ " NaN entries")))
      else if b && ! anyNan then
        .error (.spy (.valueError "numerical array with undefined entries" varname
          "well-defined numerical array"))
      else .ok ()

/-- Minimum of a list of rationals (0 on the empty list, which every use
site rules out beforehand). -/
def listMinQ : List ℚ → ℚ
  | [] => 0
  | [a] => a
  | a :: b :: rest => min a (listMinQ (b :: rest))

/-- Maximum of a list of rationals. -/
def listMaxQ : List ℚ → ℚ
  | [] => 0
  | [a] => a
  | a :: b :: rest => max a (listMaxQ (b :: rest))

/-- The `lims` bounds check of `array_parser`.  The source computes
`fi_arr = arr[np.isfinite(arr)]` (a plain NumPy TypeError on a string
array), reduces it with `.min()`/`.max()` — which on a zero-size array
raises the plain NumPy "zero-size array to reduction operation" ValueError —
and raises `SPYValueError` when the finite minimum/maximum violate the
bounds (complex arrays reduce over both real and imaginary parts). -/
def arrayLimsCheck (l : List PyScalar) (varname : String) :
    Option (PyFloat × PyFloat) → Except PErr Unit
  | none => .ok ()
  | some (lo, hi) =>
    let dt := npDtype l
    if dt = .dstr then .error (.plain .ufuncTypeError)
    else
      let fi := l.filter PyScalar.elemFinite
      if fi.isEmpty then .error (.plain .emptyReduction)
      else
        let amin :=
          if dt = .dcomplex then
            min (listMinQ (fi.map PyScalar.reQ)) (listMinQ (fi.map PyScalar.imQ))
          else listMinQ (fi.map PyScalar.reQ)
        let amax :=
          if dt = .dcomplex then
            max (listMaxQ (fi.map PyScalar.reQ)) (listMaxQ (fi.map PyScalar.imQ))
          else listMaxQ (fi.map PyScalar.reQ)
        if PyFloat.flt (.finite amin) lo || PyFloat.fgt (.finite amax) hi then
          .error (.spy (.valueError
            ("all array elements to be bounded by " ++ lo.pstr ++ " and " ++ hi.pstr)
            varname ""))
        else .ok ()

/-- The `dims` argument: an expected dimension count or an expected shape
with optional wildcard entries. -/
inductive ADims where
  | ndim (d : ℤ)
  | shape (ds : List (Option ℕ))
deriving DecidableEq

/-- Python tuple less-than: lexicographic with the prefix rule. -/
def tupLt : List ℕ → List ℕ → Bool
  | [], [] => false
  | [], _ :: _ => true
  | _ :: _, [] => false
  | a :: as, b :: bs => decide (a < b) || (decide (a = b) && tupLt as bs)

/-- Python `max` on two tuples. -/
def maxTup (a b : List ℕ) : List ℕ := if tupLt a b then b else a

/-- The `dims` check of `array_parser` on a (modelled) one-dimensional
array: for an integer `dims` the source compares
`max(ischar, arr.ndim)`; for a tuple it compares against `arr.shape` when
the tuple has more than one entry and against
`max((ischar,), arr.squeeze().shape)` otherwise (a length-one array
squeezes to a zero-dimensional one).  All failures raise
`SPYValueError`. -/
def arrayDimsCheck (l : List PyScalar) (varname : String) :
    Option ADims → Except PErr Unit
  | none => .ok ()
  | some d =>
    let ischar : ℕ := if npDtype l = .dstr then 1 else 0
    match d with
    | .ndim k =>
      let ndim : ℕ := max ischar 1
      if (ndim : ℤ) ≠ k then
        .error (.spy (.valueError (toString k ++ "d-array") varname
          (toString ndim ++ "d-array")))
      else .ok ()
    | .shape ds =>
      let ashape : List ℕ :=
        if ds.length > 1 then [l.length]
        else maxTup [ischar] (if l.length = 1 then [] else [l.length])
      if ds.length ≠ ashape.length then
        .error (.spy (.valueError (toString ds.length ++ "-dimensional array") varname
          (toString ashape.length ++ "-dimensional array")))
      else if (ds.zip ashape).any
          (fun p => match p.1 with
            | some dim => decide (p.2 ≠ dim)
            | none => false) then
        .error (.spy (.valueError "array of shape (...)" varname "shape mismatch"))
      else .ok ()

/-- Embedding of `array_parser`.  The source first requires `var` to be a
list or ndarray (else `SPYTypeError(var, varname, expected="array_like")`),
converts it to a fresh ndarray `arr = np.array(var)` (a copy — `var` is
never written), silently upgrades an absent `ntype` to "numeric" whenever
`lims` is given, and then runs the checks in source order. -/
def arrayParser (var : PyVal) (varname : String) (ntype : Option ANtype)
    (hasinf hasnan : Option Bool) (lims : Option (PyFloat × PyFloat))
    (dims : Option ADims) : ParseResult :=
  let chk : Except PErr Unit :=
    match var with
    | .list l => do
      let arr := l
      let ntypeEff := if lims.isSome && ntype.isNone then some ANtype.numeric else ntype
      arrayNtypeCheck arr varname ntypeEff
      arrayHasinfCheck arr varname hasinf
      arrayHasnanCheck arr varname hasnan
      arrayLimsCheck arr varname lims
      arrayDimsCheck arr varname dims
    | _ => .error (.spy (.typeError varname "array_like"))
  ⟨chk.map (fun _ => PyVal.pynone), var, lims⟩

/-! ### String helpers

Character-list implementations of the Python string operations the
sources use (`in`, `startswith`, `replace`, `lower`, `join`, `split`),
written so that they evaluate by kernel reduction. -/

/-- Containment test of one character list at the head of another. -/
def listPre : List Char → List Char → Bool
  | [], _ => true
  | _ :: _, [] => false
  | a :: as, b :: bs => decide (a = b) && listPre as bs

/-- Containment of one character list anywhere inside another. -/
def listSub (needle : List Char) : List Char → Bool
  | [] => needle.isEmpty
  | h :: t => listPre needle (h :: t) || listSub needle t

/-- Model of the Python substring operator: `needle in hay`. -/
def pyIn (needle hay : String) : Bool := listSub needle.toList hay.toList

/-- Python `s.startswith(p)`. -/
def pyStartsWith (s p : String) : Bool := listPre p.toList s.toList

/-- Replacement of every occurrence of a (non-empty) pattern, scanning
left to right as Python `str.replace` does. -/
def replAux (pat rep : List Char) : List Char → List Char
  | [] => []
  | h :: t =>
    if listPre pat (h :: t) && ! pat.isEmpty then
      rep ++ replAux pat rep (t.drop (pat.length - 1))
    else h :: replAux pat rep t
termination_by l => l.length
decreasing_by
  · simp [List.length_drop]
    omega
  · simp

/-- Python `s.replace(pat, rep)` for a non-empty pattern. -/
def pyReplace (s pat rep : String) : String :=
  ⟨replAux pat.toList rep.toList s.toList⟩

/-- ASCII lower-casing of one character (the comment keywords are
ASCII). -/
def lowerChar (c : Char) : Char :=
  if 'A' ≤ c ∧ c ≤ 'Z' then Char.ofNat (c.toNat + 32) else c

/-- Python `s.lower()` on ASCII text. -/
def pyLower (s : String) : String := ⟨s.toList.map lowerChar⟩

/-- Python `sep.join(xs)`. -/
def pyJoin (sep : String) : List String → String
  | [] => ""
  | [x] => x
  | x :: y :: t => x ++ sep ++ pyJoin sep (y :: t)

/-- The prefix of a character list before the first occurrence of a
non-empty separator. -/
def splitPreAux (sep : List Char) : List Char → List Char
  | [] => []
  | h :: t =>
    if listPre sep (h :: t) && ! sep.isEmpty then []
    else h :: splitPreAux sep t

/-- Python `s.split(sep)[0]` for a non-empty separator: the part of `s`
before the first occurrence of `sep`. -/
def pySplitFirst (s sep : String) : String := ⟨splitPreAux sep.toList s.toList⟩

/-! ### io_parser (syncopy/utils/parsers.py, lines 22-136) -/

/-- Abstract file-system oracle: the `os.path` functions `io_parser`
consults, as pure parameters.  `abspath` models
`os.path.abspath(os.path.expanduser(.))`, `basename` models
`os.path.basename`, and `splitext2` returns the second component (the
dotted extension) of `os.path.splitext`. -/
structure FS where
  abspath : String → String
  pexists : String → Bool
  pisdir : String → Bool
  pisfile : String → Bool
  basename : String → String
  splitext2 : String → String

/-- The `ext` argument of `io_parser`: a single string or a list of
extension strings. -/
inductive ExtArg where
  | s (x : String)
  | lst (xs : List String)
deriving DecidableEq

/-- Python `len()` of the `ext` argument. -/
def ExtArg.elen : ExtArg → ℕ
  | s x => x.length
  | lst xs => xs.length

/-- Python `str()` of the `ext` argument: a string renders as itself, a
list as its bracketed repr with quoted entries — the source tests
`file_ext not in str(ext)` against exactly this rendering. -/
def ExtArg.pstr : ExtArg → String
  | s x => x
  | lst xs =>
    "[" ++ pyJoin ", " (xs.map (fun x => "\x27" ++ x ++ "\x27")) ++ "]"

/-- The reformatted legal-extension string the source builds for the
error payload: `"".join(ex + ", " for ex in ext)[:-2]` for a list. -/
def ExtArg.joined : ExtArg → String
  | s x => x
  | lst xs => ⟨(String.join (xs.map (fun x => x ++ ", "))).toList.dropLast.dropLast⟩

/-- Result of `io_parser`: a directory path, a (path, filename) pair, the
warn-and-return-None escape of its first branch, or a raised error. -/
inductive IOOut where
  | retDir (p : String)
  | retFile (p n : String)
  | warnNone
  | raised (e : PErr)
deriving DecidableEq

/-- Embedding of `io_parser`.  The source first resolves the
isfile/ext "conflict" by *printing a warning and returning None*; then
checks that `fs_loc` is a string (`SPYTypeError`), resolves it to an
absolute path, enforces the `exists` flag (`SPYIOError`), and then splits
into the directory branch and the file branch (filename-extension check,
then file-versus-directory checks). -/
def ioParser (fs : FS) (fsLoc : PyVal) (varname : String) (isfile : Bool)
    (ext : ExtArg) (mustExist : Bool) : IOOut :=
  if ! isfile && ext.elen > 0 then .warnNone
  else
    match fsLoc with
    | .str loc0 =>
      let loc := fs.abspath loc0
      if mustExist && ! fs.pexists loc then .raised (.spy (.ioError loc false))
      else if ! mustExist && fs.pexists loc then .raised (.spy (.ioError loc true))
      else if ! isfile then
        let isd := fs.pisdir loc
        if isd && ! mustExist then .raised (.spy (.ioError loc isd))
        else if ! isd && mustExist then
          .raised (.spy (.valueError "directory" "" "file"))
        else .retDir loc
      else
        let fname := fs.basename loc
        let fileExt := pyReplace (fs.splitext2 fname) "." ""
        if decide (ext.elen ≠ 0) && (! pyIn fileExt ext.pstr || fileExt.isEmpty) then
          .raised (.spy (.valueError ext.joined "filename-extension" fileExt))
        else
          let isf := fs.pisfile loc
          if isf && ! mustExist then .raised (.spy (.ioError loc isf))
          else if ! isf && mustExist then
            .raised (.spy (.valueError "file" "" "directory"))
          else .retFile (pySplitFirst loc fname) fname
    | _ => .raised (.spy (.typeError varname "str"))

/-- A trivial file-system oracle for concrete evaluations. -/
def fsTriv : FS :=
  ⟨fun p => p, fun _ => true, fun _ => true, fun _ => false, fun p => p, fun _ => ""⟩

/-! ### data_parser (syncopy/utils/parsers.py, lines 438-488)

The `BaseData` object layer lives outside the excerpted sources, so a
data object is modelled by exactly the attributes `data_parser` reads. -/

/-- Abstract Syncopy data object: whether "BaseData" occurs in the string
of some class in its MRO, its class name, whether `obj.data` is not None,
its access mode, and its dimensional labels. -/
structure DataObj where
  mroHasBaseData : Bool
  className : String
  hasData : Bool
  mode : String
  dimord : List String

/-- The `dataclass` check: `data.__class__.__name__ not in str(dataclass)`
raises `SPYTypeError`. -/
def dataClassCheck (data : DataObj) (varname : String) :
    Option String → Except PErr Unit
  | none => .ok ()
  | some dc =>
    if pyIn data.className dc then .ok ()
    else .error (.spy (.typeError varname ("SynCoPy " ++ dc ++ " object")))

/-- The `empty` check: an `empty=True` request fails on a non-empty
object and vice versa, raising `SPYValueError`. -/
def dataEmptyCheck (data : DataObj) (varname : String) :
    Option Bool → Except PErr Unit
  | none => .ok ()
  | some e =>
    if e && data.hasData then
      .error (.spy (.valueError "empty SpkeWave data object" varname "non-empty"))
    else if ! e && ! data.hasData then
      .error (.spy (.valueError "non-empty SpkeWave data object" varname "empty"))
    else .ok ()

/-- The `writable` check against `data.mode`, raising `SPYValueError`. -/
def dataWritableCheck (data : DataObj) (varname : String) :
    Option Bool → Except PErr Unit
  | none => .ok ()
  | some w =>
    if w && data.mode = "r" then
      .error (.spy (.valueError "write-access to SynCoPy data object" varname
        ("mode = " ++ data.mode)))
    else if ! w && decide (data.mode ≠ "r") then
      .error (.spy (.valueError "read-only-access to SynCoPy data object" varname
        ("mode = " ++ data.mode)))
    else .ok ()

/-- The `dimord` check: when the dimord of the object is non-empty, the
requested labels must form a subset of it, else `SPYValueError`. -/
def dataDimordCheck (data : DataObj) (varname : String) :
    Option (List String) → Except PErr Unit
  | none => .ok ()
  | some dl =>
    if decide (data.dimord.length ≠ 0) && ! dl.all (fun d => data.dimord.contains d) then
      .error (.spy (.valueError "SynCoPy data object with requested dimord" varname
        "SynCoPy data object with other dimord"))
    else .ok ()

/-- The `BaseData` MRO check opening `data_parser`:
`any("BaseData" in str(base) for base in data.__class__.__mro__)`,
raising `SPYTypeError` when it fails. -/
def dataBaseCheck (data : DataObj) (varname : String) : Except PErr Unit :=
  if ! data.mroHasBaseData then
    .error (.spy (.typeError varname "SynCoPy data object"))
  else .ok ()

/-- Embedding of `data_parser`: the `BaseData` MRO check
(`SPYTypeError`) followed by the four optional checks in source order,
ending in a bare `return`. -/
def dataParser (data : DataObj) (varname : String) (dataclass : Option String)
    (writable : Option Bool) (emptyFlag : Option Bool)
    (dimord : Option (List String)) : Except PErr PyVal :=
  let chk : Except PErr Unit := do
    dataBaseCheck data varname
    dataClassCheck data varname dataclass
    dataEmptyCheck data varname emptyFlag
    dataWritableCheck data varname writable
    dataDimordCheck data varname dimord
  chk.map (fun _ => PyVal.pynone)

/-! ### conda2pip.py

The converter reads the "dependencies" sequence of a conda environment
YAML file (via ruamel, which attaches comments to sequence items), splits
packages into required/testing around keyword comments, and writes
pip-style requirement files. -/

/-- One ruamel comment token attached to a sequence item: its text and
the line of its end mark. -/
structure CommentTok where
  value : String
  endMarkLine : ℕ
deriving DecidableEq

/-- A ruamel CommentedSeq of package strings: the items, the comment
attachment map `ca.items` (item index to flattened token list, the
flattening by the source, `t[0] if isinstance(t, list) else t`, already
applied), and the line of the first item (`ymlSeq.lc.data[0][0]`). -/
structure CSeq where
  items : List String
  commentItems : List (ℕ × List (Option CommentTok))
  lcFirst : ℕ
deriving DecidableEq

/-- The keyword list `commentKeys` of conda2pip.py. -/
def commentKeys : List String := ["test", "optional", "development"]

/-- The `pkgConvert` replacement step: the map has the single entry
"python-graphviz" to "graphviz", and the Python `list.index(True)` finds
the first package starting with the conda name, whose occurrence is
replaced in place. -/
def pkgConvertStep (items : List String) : List String :=
  match items.findIdx? (fun p => pyStartsWith p "python-graphviz") with
  | none => items
  | some i => items.set i (pyReplace (items.getD i "") "python-graphviz" "graphviz")

/-- Does a comment text contain one of the keywords (lower-cased)? -/
def keywordIn (s : String) : Bool :=
  commentKeys.any (fun k => pyIn k (pyLower s))

/-- Cutoff contribution of one matching token: for the item at index 0
the source uses `max(0, token.end_mark.line - ymlSeq.lc.data[0][0] - 1)`,
otherwise `lineno + 1`. -/
def tokCutoff (lcFirst lineno : ℕ) (tok : CommentTok) : ℕ :=
  if lineno = 0 then (max 0 ((tok.endMarkLine : ℤ) - lcFirst - 1)).toNat
  else lineno + 1

/-- Cutoff computation of `_process_comments`: iterate `ca.items` in
order; for each item take its first attached token containing a keyword
(the inner `break`); a later item with a match overwrites an earlier one
(the outer loop does not break). -/
def computeCutoff (cs : CSeq) : Option ℕ :=
  cs.commentItems.foldl
    (fun acc p =>
      match p.2.find? (fun t? => match t? with
        | some t => keywordIn t.value
        | none => false) with
      | some (some t) => some (tokCutoff cs.lcFirst p.1 t)
      | _ => acc)
    none

/-- Embedding of `_process_comments` on a sequence of strings: the
`pkgConvert` replacement, the cutoff, and the needed/optional split
(`needed = ymlSeq[:cutoff]`, where a `None` cutoff keeps the whole list
and leaves `optional` empty). -/
def processComments (cs : CSeq) : List String × List String :=
  let items := pkgConvertStep cs.items
  match computeCutoff cs with
  | none => (items, [])
  | some c => (items.take c, items.drop c)

/-- One entry of the YAML dependencies sequence: a package string or the
pip sub-mapping (a mapping whose "pip" key holds its own commented
sequence). -/
inductive DepEntry where
  | s (pkg : String)
  | m (pip : CSeq)
deriving DecidableEq

/-- Is the entry the pip sub-mapping? -/
def DepEntry.isMap : DepEntry → Bool
  | m _ => true
  | _ => false

/-- The package string of a string entry. -/
def DepEntry.str0 : DepEntry → String
  | s p => p
  | m _ => ""

/-- The dependencies section: its entries plus the comment attachments of
the top-level sequence. -/
structure DepSeq where
  entries : List DepEntry
  commentItems : List (ℕ × List (Option CommentTok))
  lcFirst : ℕ
deriving DecidableEq

/-- Embedding of `_process_comments` applied to the top-level dependencies sequence,
which may still hold the pip mapping: the `pkgConvert` list comprehension
evaluates `pkg.startswith(...)` on every entry, and a mapping entry has
no `startswith` attribute, so a plain `AttributeError` escapes before
anything else happens. -/
def processCommentsDeps (ds : DepSeq) : Except PlainError (List String × List String) :=
  if ds.entries.any DepEntry.isMap then
    .error (.attributeError "CommentedMap object has no attribute startswith")
  else
    .ok (processComments ⟨ds.entries.map DepEntry.str0, ds.commentItems, ds.lcFirst⟩)

/-- A file write performed by `conda2pip`: target name (relative to the
current working directory), `open` mode, and the written content. -/
structure FileWrite where
  fname : String
  mode : String
  content : String
deriving DecidableEq

/-- Full result of a completed `conda2pip` run. -/
structure C2POut where
  required : List String
  testing : List String
  writes : List FileWrite
deriving DecidableEq

/-- First header line: names the generating script and the timestamp. -/
def headerLine1 (script timestamp : String) : String :=
  "# This file was auto-generated by " ++ script ++ " on " ++ timestamp ++ ". "

/-- Second header line: the do-not-edit warning. -/
def headerLine2 : String :=
  "# Do not edit, all of your changes will be overwritten. "

/-- The `msg` string of the source: the two header comment lines, each
newline-terminated. -/
def mkMsg (script timestamp : String) : String :=
  headerLine1 script timestamp ++ "\n" ++ headerLine2 ++ "\n"

/-- The file-writing tail of `conda2pip`: requirements.txt is always
opened in mode "w" (truncating any existing file); requirements-test.txt
only when the testing list is non-empty, also in mode "w"; each file
holds the header followed by its packages joined by newlines. -/
def mkWrites (msg : String) (required testing : List String) : List FileWrite :=
  ⟨"requirements.txt", "w", msg ++ pyJoin "\n" required⟩ ::
    (if testing.length > 0 then
      [⟨"requirements-test.txt", "w", msg ++ pyJoin "\n" testing⟩]
    else [])

/-- Embedding of `conda2pip`.  `pipIndex` is the index of the *last*
non-string entry (the scanning loop keeps overwriting); the truthiness
test `if pipIndex:` is false both for `None` and for index 0, so a pip
mapping at index 0 is *not* popped and reaches `_process_comments`.  When
it is popped, its "pip" sequence is processed first and the package lists
are concatenated pip-first.  Afterwards the first package starting with
"python" is removed from `required` and the requirement files are
written. -/
def conda2pip (script timestamp : String) (deps : DepSeq) :
    Except PlainError C2POut :=
  let pipIndex : Option ℕ :=
    deps.entries.enum.foldl
      (fun acc p => if p.2.isMap then some p.1 else acc) none
  let processed : Except PlainError (List String × List String) :=
    match pipIndex with
    | some i =>
      if i ≠ 0 then
        match deps.entries.getD i (.s "") with
        | .m pipSeq =>
          let pipRT := processComments pipSeq
          (processCommentsDeps ⟨deps.entries.eraseIdx i, deps.commentItems, deps.lcFirst⟩).map
            (fun rt => (pipRT.1 ++ rt.1, pipRT.2 ++ rt.2))
        | .s _ =>
          -- unreachable: pipIndex always points at a mapping entry
          .error (.attributeError "unreachable")
      else processCommentsDeps deps
    | none => processCommentsDeps deps
  processed.map (fun rt =>
    let required :=
      match rt.1.findIdx? (fun p => pyStartsWith p "python") with
      | some i => rt.1.eraseIdx i
      | none => rt.1
    ⟨required, rt.2, mkWrites (mkMsg script timestamp) required rt.2⟩)

/-! ### generate_artificial_data and figs_equal (syncopy/tests/misc.py)

Only the parts the claims cite are embedded: the trial-definition table
construction and the I/O-resource behaviour.  The dummy signal
`t = np.arange(0, 3, 0.001)` has `ceil((3 - 0) / 0.001) = 3000` samples
(the float64 quotient is 2999.9999999999995), so `t.size = 3000`. -/

/-- Number of samples per trial of the generated signal, `t.size`. -/
def tSize : ℕ := 3000

/-- Trial-definition table built by `generate_artificial_data` and passed
to `definetrial`: one `[start, stop, offset]` row per trial (dtype int).
Equidistant trials use the constant offset 0 — or 100 when overlapping —
while non-equidistant trials draw `rng.integers(int(0.1*t.size),
int(0.2*t.size))` per trial, supplied here as the function `offs`;
`shift = (-1)**(not overlapping)`.  After the loop, an equidistant table
has `equiOffset` added to the first two columns of the first row and
subtracted from those of the last row (both updates hit row 0 when
`nTrials = 1`); a non-equidistant table instead overwrites the first
start of the first row with 0 and the stop of the last row with
`nTrials * t.size`. -/
def gadTrialdef (nTrials : ℕ) (equidistant overlapping : Bool) (offs : ℕ → ℤ) :
    List (ℤ × ℤ × ℤ) :=
  let equiOffset : ℤ := if overlapping then 100 else 0
  let offsets : ℕ → ℤ := if equidistant then fun _ => equiOffset else offs
  let shift : ℤ := if overlapping then 1 else -1
  (List.range nTrials).map (fun (i : ℕ) =>
    let st : ℤ := (i : ℤ) * tSize - shift * offsets i
    let sp : ℤ := ((i : ℤ) + 1) * tSize + shift * offsets i
    if equidistant then
      (st + (if i = 0 then equiOffset else 0) - (if i = nTrials - 1 then equiOffset else 0),
       sp + (if i = 0 then equiOffset else 0) - (if i = nTrials - 1 then equiOffset else 0),
       1000)
    else
      (if i = 0 then 0 else st,
       if i = nTrials - 1 then (nTrials : ℤ) * tSize else sp,
       1000))

/-- Resource events of the examined test helpers. -/
inductive REv where
  | tmpOpen (id : ℕ)
  | tmpClose (id : ℕ)
  | h5Open (mode : String)
  | h5Close
  | pngWrite (id : ℕ)
  | pngRead (id : ℕ)
deriving DecidableEq

/-- Resource trace of `figs_equal`: two nested
`with tempfile.NamedTemporaryFile` blocks around two `savefig` and up to
two `imread` calls.  `raisePoint` is the number of body operations that
complete before an exception aborts the body (4 or more: the body runs to
completion); the context managers remove both temporary files on exit on
every path, exceptional or not. -/
def figsEqualTrace (raisePoint : ℕ) : List REv :=
  [.tmpOpen 1, .tmpOpen 2] ++
    ([REv.pngWrite 1, REv.pngWrite 2, REv.pngRead 1, REv.pngRead 2].take raisePoint) ++
    [.tmpClose 2, .tmpClose 1]

/-- HDF5 resource trace of `generate_artificial_data`: the in-memory
branch opens no HDF5 handle; the HDF5 branch opens the container in mode
"w" inside a `with` block (closed on exit) and then opens it *again* in
mode "r+" on the final line
`out.data = h5py.File(out.filename, "r+")["data"]`, keeping that handle
as the backing store of the returned object. -/
def gadH5Trace (inmemory : Bool) : List REv :=
  if inmemory then [] else [.h5Open "w", .h5Close, .h5Open "r+"]

/-- Every temporary file opened in the trace is closed (and thereby
removed) as often as it is opened. -/
def tmpBalanced (tr : List REv) : Bool :=
  tr.all (fun e => match e with
    | .tmpOpen i => decide (tr.count (.tmpClose i) = tr.count (.tmpOpen i))
    | _ => true)

/-- Number of HDF5 opens in a trace. -/
def h5Opens (tr : List REv) : ℕ :=
  tr.countP (fun e => match e with | .h5Open _ => true | _ => false)

/-- Number of HDF5 closes in a trace. -/
def h5Closes (tr : List REv) : ℕ := tr.count .h5Close

/-- Every HDF5 handle opened in the trace is closed before return. -/
def h5Balanced (tr : List REv) : Bool := decide (h5Opens tr = h5Closes tr)

/-! ### Outcome classifiers -/

/-- Did the call raise specifically a `SPYValueError`? -/
def isSpyValue : Except PErr PyVal → Bool
  | .error (.spy (.valueError _ _ _)) => true
  | _ => false

/-- Classification of a validator outcome: the call either returned
normally or raised one of the SPY error classes (in particular it did not
raise a plain Python exception). -/
def okOrSpy : Except PErr PyVal → Bool
  | .ok _ => true
  | .error e => e.isSpy

/-- The same classification for `io_parser` outcomes; the
warn-and-return-None path is neither a normal validated return nor a SPY
raise. -/
def ioOkOrSpy : IOOut → Bool
  | .warnNone => false
  | .raised e => e.isSpy
  | _ => true

/-- An `Except` computation raises only SPY errors (or none at all). -/
def SpyOnly (e : Except PErr Unit) : Prop :=
  ∀ p, e = .error p → p.isSpy = true

/-! ## Generic lemmas about the outcome plumbing -/

/-- Splitting an `Except.map` that returned normally. -/
theorem map_eq_ok {α β ε : Type} {f : α → β} {a : Except ε α} {b : β}
    (h : a.map f = .ok b) : ∃ x, a = .ok x ∧ b = f x := by
  cases a with
  | ok x => exact ⟨x, rfl, by simpa [Except.map] using h.symm⟩
  | error e => simp [Except.map] at h

/-- A constant-valued `Except.map` can only return that constant. -/
theorem map_const_ok {ε : Type} {c v : PyVal} {e : Except ε Unit}
    (h : e.map (fun _ => c) = .ok v) : v = c := by
  obtain ⟨x, -, hv⟩ := map_eq_ok h
  exact hv

/-- The outcome classification of a mapped check chain that raises only
SPY errors. -/
theorem okOrSpy_map {e : Except PErr Unit} (h : SpyOnly e) :
    okOrSpy (e.map (fun _ => PyVal.pynone)) = true := by
  cases e with
  | ok x => rfl
  | error p => simpa [Except.map, okOrSpy] using h p rfl

/-- Sequencing two SPY-only checks yields a SPY-only check. -/
theorem SpyOnly.bind {a : Except PErr Unit} {f : Unit → Except PErr Unit}
    (ha : SpyOnly a) (hf : SpyOnly (f ())) : SpyOnly (a >>= f) := by
  intro p hp
  cases a with
  | error q =>
    have hq : q = p := by simpa [Bind.bind, Except.bind] using hp
    exact hq ▸ ha q rfl
  | ok u =>
    cases u
    exact hf p (by simpa [Bind.bind, Except.bind] using hp)

/-! ## SPY-only lemmas for the individual checks -/

/-- The scalar Number check raises only SPY errors. -/
theorem scalarNumberCheck_spyOnly (var : PyVal) (vn : String) :
    SpyOnly (scalarNumberCheck var vn) := by
  intro p hp
  unfold scalarNumberCheck at hp
  split at hp <;> (try simp at hp) <;> (try subst hp) <;> simp [PErr.isSpy]

/-- The scalar ntype check raises only SPY errors when `ntype` is absent
or "int_like" (any other name hits the broken builtins lookup). -/
theorem scalarNtypeCheck_spyOnly (var : PyVal) (vn : String) (nt : Option String)
    (h : nt = none ∨ nt = some "int_like") :
    SpyOnly (scalarNtypeCheck var vn nt) := by
  intro p hp
  rcases h with h | h <;> subst h <;> simp [scalarNtypeCheck] at hp
  split at hp <;> (try simp at hp) <;> (try subst hp) <;> simp [PErr.isSpy]

/-- The scalar bounds check raises only SPY errors. -/
theorem scalarLimsCheck_spyOnly (var : PyVal) (vn : String)
    (lims : Option (PyFloat × PyFloat)) : SpyOnly (scalarLimsCheck var vn lims) := by
  intro p hp
  cases lims with
  | none => simp [scalarLimsCheck] at hp
  | some lh =>
    obtain ⟨lo, hi⟩ := lh
    simp only [scalarLimsCheck] at hp
    split at hp <;> (try simp at hp) <;> (try subst hp) <;> simp [PErr.isSpy]

/-- The array ntype check raises only SPY errors (the modelled ntype
names are all valid dtype names). -/
theorem arrayNtypeCheck_spyOnly (l : List PyScalar) (vn : String)
    (nt : Option ANtype) : SpyOnly (arrayNtypeCheck l vn nt) := by
  intro p hp
  cases nt with
  | none => simp [arrayNtypeCheck] at hp
  | some t =>
    cases t <;> simp only [arrayNtypeCheck] at hp <;>
      (try split at hp) <;> (try split at hp) <;> (try simp at hp) <;> (try subst hp) <;> simp [PErr.isSpy]

/-- A numeric dtype is not the string dtype. -/
theorem numeric_ne_dstr {dt : NDt} (h : dt.isNumeric = true) : dt ≠ .dstr := by
  cases dt <;> simp_all [NDt.isNumeric]

/-- The hasinf check raises only SPY errors when it is switched off or
the array dtype is numeric. -/
theorem arrayHasinfCheck_spyOnly (l : List PyScalar) (vn : String) (hinf : Option Bool)
    (h : hinf = none ∨ (npDtype l).isNumeric = true) :
    SpyOnly (arrayHasinfCheck l vn hinf) := by
  intro p hp
  cases hinf with
  | none => simp [arrayHasinfCheck] at hp
  | some b =>
    have hdt : npDtype l ≠ .dstr := by
      rcases h with h | h
      · exact absurd h (by simp)
      · exact numeric_ne_dstr h
    simp only [arrayHasinfCheck] at hp
    rw [if_neg hdt] at hp
    split at hp <;> (try split at hp) <;> (try simp at hp) <;> (try subst hp) <;> simp [PErr.isSpy]

/-- The hasnan check raises only SPY errors when it is switched off or
the array dtype is numeric. -/
theorem arrayHasnanCheck_spyOnly (l : List PyScalar) (vn : String) (hnan : Option Bool)
    (h : hnan = none ∨ (npDtype l).isNumeric = true) :
    SpyOnly (arrayHasnanCheck l vn hnan) := by
  intro p hp
  cases hnan with
  | none => simp [arrayHasnanCheck] at hp
  | some b =>
    have hdt : npDtype l ≠ .dstr := by
      rcases h with h | h
      · exact absurd h (by simp)
      · exact numeric_ne_dstr h
    simp only [arrayHasnanCheck] at hp
    rw [if_neg hdt] at hp
    split at hp <;> (try split at hp) <;> (try simp at hp) <;> (try subst hp) <;> simp [PErr.isSpy]

/-- The array bounds check raises only SPY errors when it is switched
off, or the dtype is numeric and at least one element is finite. -/
theorem arrayLimsCheck_spyOnly (l : List PyScalar) (vn : String)
    (lims : Option (PyFloat × PyFloat))
    (h : lims = none ∨
      ((npDtype l).isNumeric = true ∧ l.any PyScalar.elemFinite = true)) :
    SpyOnly (arrayLimsCheck l vn lims) := by
  intro p hp
  cases lims with
  | none => simp [arrayLimsCheck] at hp
  | some lh =>
    obtain ⟨lo, hi⟩ := lh
    rcases h with h | ⟨hnum, hfin⟩
    · exact absurd h (by simp)
    · have hdt : npDtype l ≠ .dstr := numeric_ne_dstr hnum
      have hne : (l.filter PyScalar.elemFinite).isEmpty = false := by
        rw [List.any_eq_true] at hfin
        obtain ⟨a, ha, hfa⟩ := hfin
        have : a ∈ l.filter PyScalar.elemFinite := List.mem_filter.mpr ⟨ha, hfa⟩
        cases hh : l.filter PyScalar.elemFinite with
        | nil => rw [hh] at this; cases this
        | cons x t => simp [List.isEmpty]
      simp only [arrayLimsCheck] at hp
      rw [if_neg hdt] at hp
      rw [hne] at hp
      simp only [Bool.false_eq_true, if_false] at hp
      split at hp <;> (try split at hp) <;> (try split at hp) <;>
        (try simp at hp) <;> (try subst hp) <;> simp [PErr.isSpy]

/-- The dims check raises only SPY errors. -/
theorem arrayDimsCheck_spyOnly (l : List PyScalar) (vn : String)
    (dims : Option ADims) : SpyOnly (arrayDimsCheck l vn dims) := by
  intro p hp
  cases dims with
  | none => simp [arrayDimsCheck] at hp
  | some d =>
    cases d <;> simp only [arrayDimsCheck] at hp <;>
      (try split at hp) <;> (try split at hp) <;> (try split at hp) <;>
      (try split at hp) <;> (try split at hp) <;>
      (try simp at hp) <;> (try subst hp) <;> simp [PErr.isSpy]

/-- The data-object class check raises only SPY errors. -/
theorem dataClassCheck_spyOnly (d : DataObj) (vn : String) (dc : Option String) :
    SpyOnly (dataClassCheck d vn dc) := by
  intro p hp
  cases dc with
  | none => simp [dataClassCheck] at hp
  | some c =>
    simp only [dataClassCheck] at hp
    split at hp <;> (try simp at hp) <;> (try subst hp) <;> simp [PErr.isSpy]

/-- The data-object empty check raises only SPY errors. -/
theorem dataEmptyCheck_spyOnly (d : DataObj) (vn : String) (e : Option Bool) :
    SpyOnly (dataEmptyCheck d vn e) := by
  intro p hp
  cases e with
  | none => simp [dataEmptyCheck] at hp
  | some b =>
    simp only [dataEmptyCheck] at hp
    split at hp <;> (try split at hp) <;> (try simp at hp) <;> (try subst hp) <;> simp [PErr.isSpy]

/-- The data-object writable check raises only SPY errors. -/
theorem dataWritableCheck_spyOnly (d : DataObj) (vn : String) (w : Option Bool) :
    SpyOnly (dataWritableCheck d vn w) := by
  intro p hp
  cases w with
  | none => simp [dataWritableCheck] at hp
  | some b =>
    simp only [dataWritableCheck] at hp
    split at hp <;> (try split at hp) <;> (try simp at hp) <;> (try subst hp) <;> simp [PErr.isSpy]

/-- The data-object dimord check raises only SPY errors. -/
theorem dataDimordCheck_spyOnly (d : DataObj) (vn : String)
    (dl : Option (List String)) : SpyOnly (dataDimordCheck d vn dl) := by
  intro p hp
  cases dl with
  | none => simp [dataDimordCheck] at hp
  | some xs =>
    simp only [dataDimordCheck] at hp
    split at hp <;> (try simp at hp) <;> (try subst hp) <;> simp [PErr.isSpy]

/-- An if-then-else of two good io outcomes is a good io outcome. -/
theorem ioOkOrSpy_ite (c : Prop) [Decidable c] (a b : IOOut)
    (ha : ioOkOrSpy a = true) (hb : ioOkOrSpy b = true) :
    ioOkOrSpy (if c then a else b) = true := by
  split <;> assumption

/-- Outside its warn path, `io_parser` either returns a validated
location or raises a SPY error. -/
theorem ioParser_okOrSpy (fs : FS) (loc : PyVal) (vn : String) (isfile : Bool)
    (ext : ExtArg) (mex : Bool) (h : isfile = true ∨ ext.elen = 0) :
    ioOkOrSpy (ioParser fs loc vn isfile ext mex) = true := by
  unfold ioParser
  split
  · rename_i hc
    exfalso
    simp at hc
    rcases h with h | h
    · rw [h] at hc
      simp at hc
    · rw [h] at hc
      omega
  · cases loc
    case str s =>
      repeat' first
        | apply ioOkOrSpy_ite
        | rfl
    all_goals simp [ioOkOrSpy, PErr.isSpy]

/-- With `ntype` absent or "int_like", `scalar_parser` either returns
None or raises a SPY error. -/
theorem scalarParser_okOrSpy (var : PyVal) (vn : String) (nt : Option String)
    (lims : Option (PyFloat × PyFloat)) (h : nt = none ∨ nt = some "int_like") :
    okOrSpy (scalarParser var vn nt lims).outcome = true :=
  okOrSpy_map ((scalarNumberCheck_spyOnly var vn).bind
    ((scalarNtypeCheck_spyOnly var vn nt h).bind (scalarLimsCheck_spyOnly var vn lims)))

/-- Away from its plain-exception paths, `array_parser` either returns
None or raises a SPY error. -/
theorem arrayParser_okOrSpy (var : PyVal) (vn : String) (nt : Option ANtype)
    (hinf hnan : Option Bool) (lims : Option (PyFloat × PyFloat)) (dims : Option ADims)
    (h1 : ∀ l, var = .list l → (hinf.isSome ∨ hnan.isSome) → (npDtype l).isNumeric = true)
    (h2 : ∀ l, var = .list l → lims.isSome →
      (npDtype l).isNumeric = true ∧ l.any PyScalar.elemFinite = true) :
    okOrSpy (arrayParser var vn nt hinf hnan lims dims).outcome = true := by
  cases var
  case list l =>
    have hinf' : hinf = none ∨ (npDtype l).isNumeric = true := by
      cases hinf with
      | none => exact Or.inl rfl
      | some b => exact Or.inr (h1 l rfl (Or.inl rfl))
    have hnan' : hnan = none ∨ (npDtype l).isNumeric = true := by
      cases hnan with
      | none => exact Or.inl rfl
      | some b => exact Or.inr (h1 l rfl (Or.inr rfl))
    have hlims' : lims = none ∨
        ((npDtype l).isNumeric = true ∧ l.any PyScalar.elemFinite = true) := by
      cases lims with
      | none => exact Or.inl rfl
      | some x => exact Or.inr (h2 l rfl rfl)
    exact okOrSpy_map ((arrayNtypeCheck_spyOnly l vn _).bind
      ((arrayHasinfCheck_spyOnly l vn hinf hinf').bind
        ((arrayHasnanCheck_spyOnly l vn hnan hnan').bind
          ((arrayLimsCheck_spyOnly l vn lims hlims').bind
            (arrayDimsCheck_spyOnly l vn dims)))))
  all_goals rfl

/-- The `data_parser` embedding either returns None or raises a SPY
error, with no further hypotheses. -/
theorem dataParser_okOrSpy (d : DataObj) (vn : String) (dc : Option String)
    (w e : Option Bool) (dl : Option (List String)) :
    okOrSpy (dataParser d vn dc w e dl) = true := by
  have hbase : SpyOnly (dataBaseCheck d vn) := by
    intro p hp
    unfold dataBaseCheck at hp
    split at hp <;> (try simp at hp) <;> (try subst hp) <;> simp [PErr.isSpy]
  exact okOrSpy_map (hbase.bind ((dataClassCheck_spyOnly d vn dc).bind
    ((dataEmptyCheck_spyOnly d vn e).bind ((dataWritableCheck_spyOnly d vn w).bind
      (dataDimordCheck_spyOnly d vn dl)))))

/-! ## Claims -/

/-- Claim C1 counterexample: `io_parser` called with `isfile = False`
and a non-empty `ext` — a conflicting input — prints a warning and
returns None instead of raising a SPY error, which the claim says never
happens. -/
theorem c1_warn_none_counterexample :
    ioParser fsTriv (.str "mydata") "dirname" false (.s "lfp") true = .warnNone ∧
    ioOkOrSpy (ioParser fsTriv (.str "mydata") "dirname" false (.s "lfp") true) = false := by
  decide

/-- Claim C1 (amended): every invalid input to the four validators is
rejected with one of the SPY error classes (SPYTypeError, SPYValueError,
SPYIOError) carrying its structured expected-versus-actual payload —
except on the escape paths the code actually has: (a) `io_parser` with
`isfile = False` and a non-empty `ext` prints a warning and returns
None; (b) `scalar_parser` with an `ntype` other than "int_like" raises a
plain AttributeError out of the `getattr(__builtins__, ntype)` lookup;
(c) `array_parser` raises plain NumPy exceptions when `hasinf`/`hasnan`
probe a non-numeric array or when the `lims` bounds check runs on a
non-numeric array or one without finite elements.  Outside these paths
every outcome is a normal return or a SPY raise; `data_parser` has no
escape path at all. -/
theorem c1_spy_errors_only :
    (∀ (fs : FS) (loc : PyVal) (vn : String) (isfile : Bool) (ext : ExtArg) (mex : Bool),
      (isfile = true ∨ ext.elen = 0) →
      ioOkOrSpy (ioParser fs loc vn isfile ext mex) = true) ∧
    (∀ (var : PyVal) (vn : String) (nt : Option String) (lims : Option (PyFloat × PyFloat)),
      (nt = none ∨ nt = some "int_like") →
      okOrSpy (scalarParser var vn nt lims).outcome = true) ∧
    (∀ (var : PyVal) (vn : String) (nt : Option ANtype) (hinf hnan : Option Bool)
        (lims : Option (PyFloat × PyFloat)) (dims : Option ADims),
      (∀ l, var = .list l → (hinf.isSome ∨ hnan.isSome) → (npDtype l).isNumeric = true) →
      (∀ l, var = .list l → lims.isSome →
        (npDtype l).isNumeric = true ∧ l.any PyScalar.elemFinite = true) →
      okOrSpy (arrayParser var vn nt hinf hnan lims dims).outcome = true) ∧
    (∀ (d : DataObj) (vn : String) (dc : Option String) (w e : Option Bool)
        (dl : Option (List String)),
      okOrSpy (dataParser d vn dc w e dl) = true) :=
  ⟨ioParser_okOrSpy, scalarParser_okOrSpy, arrayParser_okOrSpy, dataParser_okOrSpy⟩

/-- Claim C1 witness: the amended theorem applied to concrete invalid
inputs of each routine (a missing file, a non-scalar frequency, an
array of the wrong dimension, and a non-BaseData object). -/
theorem c1_spy_errors_only_witness :
    ioOkOrSpy (ioParser fsTriv (.str "data.lfp") "dset" true (.s "") true) = true ∧
    okOrSpy (scalarParser (.str "440") "freq" (some "int_like")
      (some (.finite 10, .finite 1000))).outcome = true ∧
    okOrSpy (arrayParser (.list [.int 1, .int 2]) "time" none none none none
      (some (.ndim 2))).outcome = true ∧
    okOrSpy (dataParser ⟨false, "dict", false, "r", []⟩ "data" none none none none) = true :=
  ⟨c1_spy_errors_only.1 fsTriv (.str "data.lfp") "dset" true (.s "") true (Or.inl rfl),
   c1_spy_errors_only.2.1 (.str "440") "freq" (some "int_like")
     (some (.finite 10, .finite 1000)) (Or.inr rfl),
   c1_spy_errors_only.2.2.1 (.list [.int 1, .int 2]) "time" none none none none
     (some (.ndim 2)) (fun l hl hs => by simp at hs) (fun l hl hs => by simp at hs),
   c1_spy_errors_only.2.2.2 ⟨false, "dict", false, "r", []⟩ "data" none none none none⟩

/-- Claim C2 counterexample: on the dependencies list ["numpy"] with no
keyword comments, `conda2pip` completes but writes only
requirements.txt — no requirements-test.txt is produced — refuting
"writes the file requirements.txt and the file requirements-test.txt"
for every input. -/
theorem c2_test_file_not_written :
    (conda2pip "conda2pip.py" "05/10/2020 at 11:11:21" ⟨[.s "numpy"], [], 0⟩).map
      (fun r => r.writes.map FileWrite.fname) = .ok ["requirements.txt"] := by
  decide

/-- Claim C2 (amended): whenever `conda2pip` completes, it writes
requirements.txt in mode "w" (truncating any existing file without
confirmation) into the current working directory, writes
requirements-test.txt — also in mode "w" — exactly when the computed
testing list is non-empty, and performs no other writes. -/
theorem c2_requirement_writes (script ts : String) (deps : DepSeq) (res : C2POut)
    (h : conda2pip script ts deps = .ok res) :
    res.writes.map (fun w => (w.fname, w.mode)) =
      ("requirements.txt", "w") ::
        (if res.testing.length > 0 then [("requirements-test.txt", "w")] else []) := by
  unfold conda2pip at h
  obtain ⟨rt, -, hres⟩ := map_eq_ok h
  subst hres
  simp only [mkWrites]
  by_cases ht : rt.2.length > 0 <;> simp [ht]

/-- Claim C2 witness: the amended theorem applied to a run with a
non-empty testing list, exhibiting both writes in mode "w". -/
theorem c2_requirement_writes_witness :
    (⟨["numpy"], ["scipy"],
        mkWrites (mkMsg "conda2pip.py" "t1") ["numpy"] ["scipy"]⟩ : C2POut).writes.map
        (fun w => (w.fname, w.mode)) =
      ("requirements.txt", "w") ::
        (if (["scipy"] : List String).length > 0 then
          [("requirements-test.txt", "w")] else []) :=
  c2_requirement_writes "conda2pip.py" "t1"
    ⟨[.s "numpy", .s "scipy"], [(0, [none, some ⟨"# testing", 2⟩])], 0⟩
    ⟨["numpy"], ["scipy"], mkWrites (mkMsg "conda2pip.py" "t1") ["numpy"] ["scipy"]⟩
    (by decide)

/-- Claim C3 (code bug): for nTrials = 1 with equidistant and overlapping
both set, the first-row and last-row boundary adjustments hit the same
row and cancel, leaving the single trial-definition row
[-100, 3100, 1000]: its start is negative and its stop exceeds
nTrials * t.size = 3000 — although the own comment of the code says the
construction makes "sure initial and end-samples are within data
bounds". -/
theorem c3_single_trial_out_of_bounds :
    gadTrialdef 1 true true (fun _ => 0) = [(-100, 3100, 1000)] ∧
    ¬ (0 ≤ (-100 : ℤ)) ∧ ¬ ((3100 : ℤ) ≤ 1 * (tSize : ℤ)) := by decide

/-- Claim C4 counterexample: with inmemory = False,
`generate_artificial_data` ends with an HDF5 open in mode "r+" that is
never closed, so "every HDF5 handle ... is closed before the function
returns" is false. -/
theorem c4_h5_handle_left_open :
    gadH5Trace false = [.h5Open "w", .h5Close, .h5Open "r+"] ∧
    h5Balanced (gadH5Trace false) = false := by decide

/-- Claim C4 (amended): the two temporary PNG files of `figs_equal` are
removed on every path (exceptional ones included), and the with-scoped
HDF5 write handle of `generate_artificial_data` is closed; but the "r+"
handle opened on the last line of the HDF5 branch stays open when the
function returns (exactly one unmatched open), since it backs the
data of the returned object. -/
theorem c4_resource_release :
    (∀ k : ℕ, tmpBalanced (figsEqualTrace k) = true) ∧
    h5Balanced (gadH5Trace true) = true ∧
    h5Opens (gadH5Trace false) = h5Closes (gadH5Trace false) + 1 := by
  refine ⟨?_, by decide, by decide⟩
  intro k
  match k with
  | 0 => decide
  | 1 => decide
  | 2 => decide
  | 3 => decide
  | n + 4 =>
    have h4 : [REv.pngWrite 1, REv.pngWrite 2, REv.pngRead 1, REv.pngRead 2].take (n + 4) =
        [REv.pngWrite 1, REv.pngWrite 2, REv.pngRead 1, REv.pngRead 2] :=
      List.take_of_length_le (by simp)
    unfold figsEqualTrace
    rw [h4]
    decide

/-- Claim C5: every requirements file `conda2pip` produces is the
two-line auto-generated header — the line naming the generating script
and the timestamp, then the do-not-edit line, each newline-terminated —
followed by the package entries joined one per line; the packages are
exactly the required list or the testing list of the run. -/
theorem c5_file_header (script ts : String) (deps : DepSeq) (res : C2POut)
    (h : conda2pip script ts deps = .ok res) :
    mkMsg script ts = headerLine1 script ts ++ "\n" ++ headerLine2 ++ "\n" ∧
    ∀ w ∈ res.writes, w.mode = "w" ∧
      (w.content = mkMsg script ts ++ pyJoin "\n" res.required ∨
       w.content = mkMsg script ts ++ pyJoin "\n" res.testing) := by
  refine ⟨rfl, ?_⟩
  unfold conda2pip at h
  obtain ⟨rt, -, hres⟩ := map_eq_ok h
  subst hres
  intro w hw
  simp only [mkWrites] at hw
  rw [List.mem_cons] at hw
  rcases hw with hw | hw
  · subst hw
    exact ⟨rfl, Or.inl rfl⟩
  · by_cases ht : rt.2.length > 0
    · rw [if_pos ht] at hw
      rw [List.mem_singleton] at hw
      subst hw
      exact ⟨rfl, Or.inr rfl⟩
    · rw [if_neg ht] at hw
      cases hw

/-- Claim C5 witness: the header theorem applied to a concrete run and
its requirements.txt write. -/
theorem c5_file_header_witness :
    mkMsg "conda2pip.py" "t2" = headerLine1 "conda2pip.py" "t2" ++ "\n" ++ headerLine2 ++ "\n" ∧
    ((⟨"requirements.txt", "w",
        mkMsg "conda2pip.py" "t2" ++ pyJoin "\n" ["numpy"]⟩ : FileWrite).mode = "w" ∧
      ((⟨"requirements.txt", "w",
          mkMsg "conda2pip.py" "t2" ++ pyJoin "\n" ["numpy"]⟩ : FileWrite).content =
          mkMsg "conda2pip.py" "t2" ++ pyJoin "\n" ["numpy"] ∨
       (⟨"requirements.txt", "w",
          mkMsg "conda2pip.py" "t2" ++ pyJoin "\n" ["numpy"]⟩ : FileWrite).content =
          mkMsg "conda2pip.py" "t2" ++ pyJoin "\n" ([] : List String))) :=
  ⟨(c5_file_header "conda2pip.py" "t2" ⟨[.s "numpy"], [], 0⟩
      ⟨["numpy"], [], mkWrites (mkMsg "conda2pip.py" "t2") ["numpy"] []⟩ (by decide)).1,
   (c5_file_header "conda2pip.py" "t2" ⟨[.s "numpy"], [], 0⟩
      ⟨["numpy"], [], mkWrites (mkMsg "conda2pip.py" "t2") ["numpy"] []⟩ (by decide)).2
     ⟨"requirements.txt", "w", mkMsg "conda2pip.py" "t2" ++ pyJoin "\n" ["numpy"]⟩
     (by decide)⟩

/-- Claim C6: `scalar_parser` and `array_parser` are pure checks — on
every input they either raise or return None, and the caller arguments `var` and
`lims` come back unchanged (`array_parser` reads only its fresh ndarray
copy and never writes back). -/
theorem c6_pure_checks :
    (∀ (var : PyVal) (vn : String) (nt : Option String)
        (lims : Option (PyFloat × PyFloat)),
      (scalarParser var vn nt lims).varOut = var ∧
      (scalarParser var vn nt lims).limsOut = lims ∧
      ∀ v, (scalarParser var vn nt lims).outcome = .ok v → v = .pynone) ∧
    (∀ (var : PyVal) (vn : String) (nt : Option ANtype) (hinf hnan : Option Bool)
        (lims : Option (PyFloat × PyFloat)) (dims : Option ADims),
      (arrayParser var vn nt hinf hnan lims dims).varOut = var ∧
      (arrayParser var vn nt hinf hnan lims dims).limsOut = lims ∧
      ∀ v, (arrayParser var vn nt hinf hnan lims dims).outcome = .ok v → v = .pynone) :=
  ⟨fun _ _ _ _ => ⟨rfl, rfl, fun _ hv => map_const_ok hv⟩,
   fun _ _ _ _ _ _ _ => ⟨rfl, rfl, fun _ hv => map_const_ok hv⟩⟩

/-- Claim C6 witness: the purity theorem applied to concrete calls, with
the return-value hypothesis discharged on inputs that pass. -/
theorem c6_pure_checks_witness :
    (scalarParser (.int 5) "n" none none).varOut = .int 5 ∧
    (PyVal.pynone = PyVal.pynone) ∧
    (arrayParser (.list [.int 1]) "a" none none none none none).limsOut = none ∧
    (PyVal.pynone = PyVal.pynone) :=
  ⟨(c6_pure_checks.1 (.int 5) "n" none none).1,
   (c6_pure_checks.1 (.int 5) "n" none none).2.2 .pynone (by decide),
   (c6_pure_checks.2 (.list [.int 1]) "a" none none none none none).2.1,
   (c6_pure_checks.2 (.list [.int 1]) "a" none none none none none).2.2 .pynone (by decide)⟩

/-- The pipIndex scan folded over an enumeration of entries none of
which is a mapping leaves the accumulator unchanged. -/
theorem pipIndexScan_enumFrom (t : List DepEntry) (n : ℕ) (a : Option ℕ)
    (h : ∀ e ∈ t, e.isMap = false) :
    (t.enumFrom n).foldl (fun acc p => if p.2.isMap then some p.1 else acc) a = a := by
  induction t generalizing n a with
  | nil => rfl
  | cons x t ih =>
    rw [List.enumFrom_cons, List.foldl_cons,
      if_neg (by simp [h x (List.mem_cons_self x t)])]
    exact ih (n + 1) a (fun e he => h e (List.mem_cons_of_mem x he))

/-- Claim C7 counterexample: with the pip mapping sitting at index 0,
`conda2pip` does not complete at all — it raises a plain AttributeError —
so there is no required/testing output in which the pip packages could
fail to appear. -/
theorem c7_pip_first_no_output :
    conda2pip "conda2pip.py" "t0"
      ⟨[.m ⟨["sphinx-automodapi"], [], 0⟩, .s "numpy"], [], 0⟩ =
      .error (.attributeError "CommentedMap object has no attribute startswith") := by
  decide

/-- Claim C7 (amended): when the pip sub-mapping sits at index 0 and is
the only mapping entry, the truthiness test `if pipIndex:` is false, so
the mapping is not popped; it then reaches `_process_comments`, whose
`startswith` comprehension raises a plain AttributeError — `conda2pip`
produces no output at all, so in particular the pip packages are never
incorporated. -/
theorem c7_pip_first_crashes (script ts : String) (pm : CSeq) (rest : List DepEntry)
    (ci : List (ℕ × List (Option CommentTok))) (lf : ℕ)
    (hrest : ∀ e ∈ rest, e.isMap = false) :
    conda2pip script ts ⟨.m pm :: rest, ci, lf⟩ =
      .error (.attributeError "CommentedMap object has no attribute startswith") := by
  unfold conda2pip
  have hfold : (DepEntry.m pm :: rest).enum.foldl
      (fun acc p => if p.2.isMap then some p.1 else acc) none = some 0 := by
    rw [List.enum_cons, List.foldl_cons]
    simp only [DepEntry.isMap, if_true]
    exact pipIndexScan_enumFrom rest 1 (some 0) hrest
  simp only [hfold]
  simp [processCommentsDeps, DepEntry.isMap, Except.map]

/-- Claim C7 witness: the amended theorem on a concrete environment with
the pip mapping first. -/
theorem c7_pip_first_crashes_witness :
    conda2pip "s.py" "t3" ⟨[.m ⟨["black"], [], 0⟩, .s "scipy"], [], 0⟩ =
      .error (.attributeError "CommentedMap object has no attribute startswith") :=
  c7_pip_first_crashes "s.py" "t3" ⟨["black"], [], 0⟩ [.s "scipy"] [] 0 (by decide)

/-- Claim C8 counterexample: a call with lims set on an array all of
whose elements are non-finite, but with hasinf = False as well, raises a
SPYValueError (from the hasinf check) — not a plain exception — so the
"for every call with lims set" phrasing fails. -/
theorem c8_hasinf_spy_counterexample :
    isSpyValue (arrayParser (.list [.float .inf]) "" none (some false) none
      (some (.finite 0, .finite 1)) none).outcome = true := by decide

/-- Claim C8 (amended): with `ntype`, `hasinf` and `hasnan` left at their
defaults and `lims` supplied, an array all of whose elements are
non-finite drives the bounds check into a min/max reduction over the
empty finite subset, which raises the plain NumPy zero-size-reduction
ValueError instead of a SPYValueError. -/
theorem c8_empty_reduction (l : List PyScalar) (vn : String) (lo hi : PyFloat)
    (dims : Option ADims) (hnf : ∀ a ∈ l, a.elemFinite = false) :
    (arrayParser (.list l) vn none none none (some (lo, hi)) dims).outcome =
      .error (.plain .emptyReduction) := by
  have hstr : l.any PyScalar.isStr = false := by
    rw [List.any_eq_false]
    intro a ha
    have := hnf a ha
    cases a <;> simp_all [PyScalar.elemFinite, PyScalar.isStr]
  have hnum : (npDtype l).isNumeric = true := by
    unfold npDtype
    rw [hstr]
    simp only [Bool.false_eq_true, if_false]
    split_ifs <;> rfl
  have h1 : arrayNtypeCheck l vn (some ANtype.numeric) = .ok () := by
    unfold arrayNtypeCheck
    simp [hnum]
  have h4 : arrayLimsCheck l vn (some (lo, hi)) = .error (.plain .emptyReduction) := by
    simp only [arrayLimsCheck]
    rw [if_neg (numeric_ne_dstr hnum)]
    have hfe : l.filter PyScalar.elemFinite = [] :=
      List.filter_eq_nil.mpr (fun a ha => by simp [hnf a ha])
    rw [hfe]
    rfl
  show ((do
      arrayNtypeCheck l vn (some ANtype.numeric)
      arrayHasinfCheck l vn none
      arrayHasnanCheck l vn none
      arrayLimsCheck l vn (some (lo, hi))
      arrayDimsCheck l vn dims).map (fun _ => PyVal.pynone)) =
    .error (.plain .emptyReduction)
  rw [h1, h4]
  rfl

/-- Claim C8 witness: the amended theorem on the concrete array
[NaN, inf] with bounds [0, 1]. -/
theorem c8_empty_reduction_witness :
    (arrayParser (.list [.float .nan, .float .inf]) "x" none none none
      (some (.finite 0, .finite 1)) none).outcome = .error (.plain .emptyReduction) :=
  c8_empty_reduction [.float .nan, .float .inf] "x" (.finite 0) (.finite 1) none (by decide)

/-- Claim C9: whenever bounds are supplied, `scalar_parser` rejects every
non-finite real scalar with a SPYValueError — for any two-element lims,
[-inf, inf] included — because the bounds condition ends in
`or not np.isfinite(var)`. -/
theorem c9_nonfinite_scalar_rejected (v lo hi : PyFloat) (vn : String)
    (h : v = .nan ∨ v = .inf ∨ v = .ninf) :
    (scalarParser (.float v) vn none (some (lo, hi))).outcome =
      .error (.spy (.valueError
        ("value to be " ++ "greater or equals " ++ lo.pstr ++ " and less or equals " ++ hi.pstr)
        vn v.pstr)) := by
  have hfin : pyIsFinite (.float v) = false := by
    rcases h with h | h | h <;> subst h <;> rfl
  have hl : scalarLimsCheck (.float v) vn (some (lo, hi)) =
      .error (.spy (.valueError
        ("value to be " ++ "greater or equals " ++ lo.pstr ++ " and less or equals " ++ hi.pstr)
        vn (PyVal.float v).pstr)) := by
    unfold scalarLimsCheck
    simp [hfin]
  show ((do
      scalarNumberCheck (.float v) vn
      scalarNtypeCheck (.float v) vn none
      scalarLimsCheck (.float v) vn (some (lo, hi))).map (fun _ => PyVal.pynone)) = _
  rw [hl]
  rfl

/-- Claim C9 witness: NaN against the bounds [-inf, inf]. -/
theorem c9_nonfinite_scalar_rejected_witness :
    (scalarParser (.float .nan) "freq" none (some (.ninf, .inf))).outcome =
      .error (.spy (.valueError
        ("value to be " ++ "greater or equals " ++ PyFloat.ninf.pstr ++
          " and less or equals " ++ PyFloat.inf.pstr)
        "freq" PyFloat.nan.pstr)) :=
  c9_nonfinite_scalar_rejected .nan .ninf .inf "freq" (Or.inl rfl)

end Syncopy
